import Mathlib

/-!
Verification development for the elevenlabs-twilio-ai-caller repository.

The embedding below is a shallow translation of src/outbound-calls.js.  That
file contains two concatenated revisions of the media-stream handler:

* variant A (lines 1 to 1252): the enhanced handler, whose per-session
  WebSocket handler lives at lines 775 to 1215, whose /call-status route is at
  lines 1218 to 1245, and whose /outbound-call route is at lines 538 to 630;
* variant B (lines 1252 to 2011): the older handler, whose open handler sends
  an explicit initialization frame unconditionally (lines 1470 to 1530) and
  whose tool executor is at lines 1879 to 2010.

Pure helpers model JavaScript truthiness on strings, since the handlers guard
many branches with bare truthiness tests.
-/

/-- JavaScript truthiness of a possibly absent string: null/undefined and the
empty string are falsy, every other string is truthy. -/
def jsTruthyS : Option String → Bool
  | none => false
  | some s => !(s == "")

/-- JavaScript expression `o || d` for a possibly absent string with a string
default: the default is used when the value is absent or empty. -/
def jsOrS (o : Option String) (d : String) : String :=
  match o with
  | none => d
  | some s => if s == "" then d else s

/-- JavaScript expression `s || d` for two strings. -/
def jsOrStr (s d : String) : String :=
  if s == "" then d else s

/-- JavaScript expression `o || null`: absent or empty collapses to null. -/
def jsOrNullS : Option String → Option String
  | none => none
  | some s => if s == "" then none else some s

/-! ## URL prewarm cache (variant A, lines 36 to 98)

`ElevenLabsConnectionManager.cachedSignedUrls` holds url/timestamp pairs;
`getCachedUrl` (lines 70 to 82) first drops entries older than five minutes
and then pops the front entry, if any. Timestamps are millisecond clock
values, modelled as integers. -/

/-- Entry of `cachedSignedUrls`: a signed URL plus its acquisition time in
milliseconds (source lines 58 to 61). -/
structure UrlEntry where
  url : String
  timestamp : Int
deriving Repr, DecidableEq

/-- Translation of `ElevenLabsConnectionManager.getCachedUrl` (lines 70 to
82).  Returns the handed-out URL (if any) together with the remaining cache
(the asynchronous replenishment appends fresh entries later and never touches
the handed-out entry, so it is omitted). -/
def getCachedUrl (now : Int) (cache : List UrlEntry) : Option String × List UrlEntry :=
  let fiveMinutesAgo := now - 5 * 60 * 1000
  let fresh := cache.filter (fun item => decide (fiveMinutesAgo < item.timestamp))
  match fresh with
  | [] => (none, [])
  | item :: rest => (some item.url, rest)

/-! ## Tool execution (variant B, lines 1879 to 2010)

`handleToolExecution` validates the parameters of `get_available_slots`
before issuing the backend request.  The validation is pure and modelled
below; the HTTP call itself is environment interaction and is cut off at the
point where the query is fully assembled. -/

/-- Parameters of a `get_available_slots` tool call as received from the
agent.  `startParam` and `endParam` model the JavaScript fields `start` and
`end` (the latter is a Lean keyword). -/
structure ToolParams where
  eventTypeId : Option String
  startParam : Option String
  endParam : Option String
  timeZone : Option String
deriving Repr, DecidableEq

/-- Fully validated query for the calendar backend (`calComParams`, lines
1911 to 1957). -/
structure SlotQuery where
  eventTypeId : String
  startDate : String
  endDate : String
  timeZone : String
deriving Repr, DecidableEq

/-- Result of the pure part of `handleToolExecution` on the
`get_available_slots` branch: either an assembled query or the message of the
thrown error. -/
inductive SlotsResult where
  | ok (q : SlotQuery)
  | error (message : String)
deriving Repr, DecidableEq

/-- The regular expression `^\d{4}-\d{2}-\d{2}$` used at lines 1925 and 1931:
exactly ten characters, digits in date positions and dashes at indices 4
and 7. -/
def isDateFormat (s : String) : Bool :=
  match s.data with
  | [y1, y2, y3, y4, d1, m1, m2, d2, a1, a2] =>
      y1.isDigit && y2.isDigit && y3.isDigit && y4.isDigit && d1 == '-' &&
      m1.isDigit && m2.isDigit && d2 == '-' && a1.isDigit && a2.isDigit
  | _ => false

/-- Character class `[a-zA-Z_]` of the time-zone pattern at line 1951. -/
def isTzChar (c : Char) : Bool :=
  c.isAlpha || c == '_'

/-- The regular expression `^[a-zA-Z_]+\/[a-zA-Z_]+$` used at line 1951: two
nonempty runs of letters or underscores separated by exactly one slash. -/
def isTzFormat (s : String) : Bool :=
  match s.splitOn "/" with
  | [p1, p2] => !p1.isEmpty && !p2.isEmpty && p1.all isTzChar && p2.all isTzChar
  | _ => false

/-- Error message thrown at line 1921 when eventTypeId is missing (source
quotes around the parameter name elided). -/
def missingEventTypeIdMsg : String :=
  "Missing required eventTypeId parameter from LLM for get_available_slots."

/-- Error message thrown at line 1947 when the start date is missing or not
of the form YYYY-MM-DD (source quotes elided). -/
def invalidStartMsg : String :=
  "Missing or invalid start date parameter (YYYY-MM-DD) from LLM."

/-- Parameter validation and transformation of the `get_available_slots`
branch of `handleToolExecution` (lines 1906 to 1965), up to the point where
the backend query is assembled. -/
def getAvailableSlotsQuery (p : ToolParams) : SlotsResult :=
  if jsTruthyS p.eventTypeId = false then
    SlotsResult.error missingEventTypeIdMsg
  else if jsTruthyS p.startParam && isDateFormat (p.startParam.getD "") then
    let startDate := p.startParam.getD ""
    let endDate :=
      if jsTruthyS p.endParam && isDateFormat (p.endParam.getD "") then
        p.endParam.getD ""
      else startDate
    let tz :=
      if jsTruthyS p.timeZone && isTzFormat (p.timeZone.getD "") then
        p.timeZone.getD ""
      else "Australia/Brisbane"
    SlotsResult.ok ⟨p.eventTypeId.getD "", startDate, endDate, tz⟩
  else
    SlotsResult.error invalidStartMsg

/-- Outer guard of `handleToolExecution` (lines 1883 to 1887): the Cal.com
API key must be configured before any tool runs, then the
`get_available_slots` branch proceeds as above. -/
def handleToolExecutionSlots (calComApiKey : Option String) (p : ToolParams) : SlotsResult :=
  if jsTruthyS calComApiKey = false then
    SlotsResult.error "Missing required CAL_COM_API_KEY."
  else getAvailableSlotsQuery p

/-! ## Session bridge, variant A (lines 775 to 1215)

The `/outbound-media-stream` handler keeps per-session state in closure
variables (lines 783 to 796).  The handler reacts to Twilio WebSocket events
(lines 1033 to 1192), to the ElevenLabs open event (lines 839 to 889), to
ElevenLabs messages (lines 892 to 1015) and to close events of either socket
(lines 1017 to 1020 and 1194 to 1204).  The state below records exactly the
closure variables the handlers read; the unused latency bookkeeping
(`initialConfigSentTimestamp`, `firstAgentAudioPacketLogged`) and the unused
parsed `customParams` blob are omitted. -/

/-- Initialization frame composed in the ElevenLabs open handler (lines 850
to 864): conversation override (first message, system prompt) plus the three
dynamic variables. -/
structure InitialConfig where
  firstMessage : String
  systemPrompt : String
  dynCustomerName : String
  dynPhoneNumber : String
  dynAirtableRecordId : String
deriving Repr, DecidableEq

/-- Raw `customParameters` carried by the Twilio start event (line 1047):
each field may be absent. -/
structure CustomParamsIn where
  name : Option String
  number : Option String
  airtableRecordId : Option String
  customParams : Option String
deriving Repr, DecidableEq

/-- The `decodedCustomParameters` object built at lines 1061 to 1066.  The
parsed `customParams` sub-object is dropped: it is never read again. -/
structure DecodedParams where
  name : String
  number : String
  airtableRecordId : Option String
deriving Repr, DecidableEq

/-- Closure state of one `/outbound-media-stream` session (lines 783 to
796). -/
structure SessionState where
  streamSid : Option String
  callSid : Option String
  decodedCustomParameters : Option DecodedParams
  elOpen : Bool
  twilioAudioBuffer : List String
  pendingAudioBuffer : List String
  twilioStartEventProcessed : Bool
  initialConfigSent : Bool
deriving Repr, DecidableEq

/-- Initial closure state on WebSocket accept (lines 783 to 796). -/
def initialState : SessionState :=
  { streamSid := none
    callSid := none
    decodedCustomParameters := none
    elOpen := false
    twilioAudioBuffer := []
    pendingAudioBuffer := []
    twilioStartEventProcessed := false
    initialConfigSent := false }

/-- Greeting text spliced around the customer name at line 854 (apostrophes
replaced by typographic marks). -/
def greetingTail : String :=
  ", this is Alex from Build and Bloom. I’m calling about the AI automation interest you showed on Facebook. Quick question - what’s eating up most of your time as an agent right now?"

/-- System prompt at line 855. -/
def outboundSystemPrompt : String :=
  "You are Alex, a friendly AI assistant from Build and Bloom calling leads who showed interest in AI automation. Be conversational and helpful."

/-- The `initialConfig` object assembled in the open handler (lines 846 to
864) from the decoded custom parameters. -/
def buildInitialConfig (p : DecodedParams) : InitialConfig :=
  let customerName := jsOrStr p.name "Valued Customer"
  { firstMessage := "Hi " ++ customerName ++ greetingTail
    systemPrompt := outboundSystemPrompt
    dynCustomerName := customerName
    dynPhoneNumber := jsOrStr p.number "Unknown"
    dynAirtableRecordId := jsOrS p.airtableRecordId "" }

/-- External events a session reacts to: Twilio WebSocket frames, ElevenLabs
socket lifecycle events and ElevenLabs messages.  The audio chunk of an agent
audio message is the extraction `message.audio?.chunk ||
message.audio_event?.audio_base_64` (lines 913 to 917); a tool call event
carries the already-computed outcome of `handleToolExecution`, since the
dispatch at lines 979 to 1004 only wraps that outcome. -/
inductive ToolOutcome where
  | ok (result : String)
  | err (message : String)
deriving Repr, DecidableEq

inductive TEvent where
  | telcoStart (sid : String) (cSid : Option String) (cp : CustomParamsIn)
  | telcoMedia (payload : String)
  | telcoStop
  | telcoConnected
  | telcoClose
  | agentOpen
  | agentAudio (chunk : Option String)
  | agentInterruption
  | agentPing (eventId : Option Nat)
  | agentToolCall (toolCallId : String) (outcome : ToolOutcome)
  | agentOther
  | agentClose
deriving Repr, DecidableEq

/-- Frames and side effects a step may emit: messages to the ElevenLabs
socket, messages to the Twilio socket, a close of the agent socket, and the
SDK call finalizing the Twilio call. -/
inductive OutFrame where
  | initFrame (c : InitialConfig)
  | userAudio (chunk : String)
  | pong (eventId : Nat)
  | toolResult (toolCallId : String) (result : String) (isErr : Bool)
  | mediaToTelco (sid : String) (payload : String)
  | clearToTelco (sid : String)
  | closeAgentWs
  | finalizeCall (cSid : String)
deriving Repr, DecidableEq

/-- JSON body `JSON.stringify(\x7berror: message\x7d)` sent on a failed tool
call (line 996). -/
def mkErrorJson (message : String) : String :=
  "\x7b\"error\":\"" ++ message ++ "\"\x7d"

/-- One step of the variant A session handler.  Each arm is a direct
translation of the corresponding event handler:

* `telcoStart`: lines 1039 to 1115 (record sids, decode parameters with
  defaults, launch the ElevenLabs setup, flush the pending agent audio);
* `telcoMedia`: lines 1117 to 1148 (forward when the agent socket is open,
  otherwise buffer up to 200 chunks, dropping the new chunk at the cap);
* `telcoStop`: lines 1150 to 1180 (close the agent socket if open, finalize
  the call when the callSid is known);
* `telcoClose`: lines 1194 to 1204;
* `agentOpen`: lines 839 to 889 (mark open, send the initialization frame
  when callSid and decoded parameters are present and it was not sent yet,
  then drain the Twilio audio buffer);
* `agentAudio`: lines 909 to 938 (forward when streamSid is truthy,
  otherwise buffer);
* `agentInterruption`: lines 940 to 948;
* `agentPing`: lines 951 to 959;
* `agentToolCall`: lines 974 to 1004 (send the result envelope when the
  agent socket is open);
* `agentClose`: lines 1017 to 1020. -/
def stepA (s : SessionState) : TEvent → SessionState × List OutFrame
  | .telcoStart sid cSid cp =>
      let decoded : DecodedParams :=
        { name := jsOrS cp.name "Valued Customer"
          number := jsOrS cp.number "Unknown"
          airtableRecordId := jsOrNullS cp.airtableRecordId }
      ({ s with streamSid := some sid
                callSid := cSid
                decodedCustomParameters := some decoded
                twilioStartEventProcessed := true
                pendingAudioBuffer := [] },
       s.pendingAudioBuffer.map (fun c => OutFrame.mediaToTelco sid c))
  | .telcoMedia payload =>
      if s.elOpen then (s, [OutFrame.userAudio payload])
      else if s.twilioAudioBuffer.length < 200 then
        ({ s with twilioAudioBuffer := s.twilioAudioBuffer ++ [payload] }, [])
      else (s, [])
  | .telcoStop =>
      ({ s with elOpen := false },
       (if s.elOpen then [OutFrame.closeAgentWs] else []) ++
         (match s.callSid with
          | some c => if c == "" then [] else [OutFrame.finalizeCall c]
          | none => []))
  | .telcoConnected => (s, [])
  | .telcoClose =>
      ({ s with elOpen := false },
       if s.elOpen then [OutFrame.closeAgentWs] else [])
  | .agentOpen =>
      match s.decodedCustomParameters with
      | some p =>
          if jsTruthyS s.callSid && !s.initialConfigSent then
            ({ s with elOpen := true, initialConfigSent := true, twilioAudioBuffer := [] },
             OutFrame.initFrame (buildInitialConfig p) ::
               s.twilioAudioBuffer.map OutFrame.userAudio)
          else
            ({ s with elOpen := true, twilioAudioBuffer := [] },
             s.twilioAudioBuffer.map OutFrame.userAudio)
      | none =>
          ({ s with elOpen := true, twilioAudioBuffer := [] },
           s.twilioAudioBuffer.map OutFrame.userAudio)
  | .agentAudio chunk =>
      if jsTruthyS s.streamSid then
        match chunk with
        | some c =>
            if c == "" then (s, [])
            else (s, [OutFrame.mediaToTelco (s.streamSid.getD "") c])
        | none => (s, [])
      else
        match chunk with
        | some c =>
            if c == "" then (s, [])
            else ({ s with pendingAudioBuffer := s.pendingAudioBuffer ++ [c] }, [])
        | none => (s, [])
  | .agentInterruption =>
      if jsTruthyS s.streamSid then
        (s, [OutFrame.clearToTelco (s.streamSid.getD "")])
      else (s, [])
  | .agentPing eventId =>
      match eventId with
      | some n => if n == 0 then (s, []) else (s, [OutFrame.pong n])
      | none => (s, [])
  | .agentToolCall toolCallId outcome =>
      if s.elOpen then
        match outcome with
        | .ok r => (s, [OutFrame.toolResult toolCallId r false])
        | .err m => (s, [OutFrame.toolResult toolCallId (mkErrorJson m) true])
      else (s, [])
  | .agentOther => (s, [])
  | .agentClose => ({ s with elOpen := false }, [])

/-- Run a sequence of events from a given state, collecting all emitted
frames in order. -/
def runFrom (s : SessionState) : List TEvent → SessionState × List OutFrame
  | [] => (s, [])
  | e :: es =>
      let r := stepA s e
      let rest := runFrom r.1 es
      (rest.1, r.2 ++ rest.2)

/-- Run a session from its initial state. -/
def runA (es : List TEvent) : SessionState × List OutFrame :=
  runFrom initialState es

/-! ## Session bridge, variant B (lines 1442 to 1831)

The older handler calls `setupElevenLabs()` as soon as the Twilio socket is
accepted (line 1670); its ElevenLabs open handler (lines 1470 to 1530)
drains the Twilio audio buffer and then sends an explicit initialization
frame unconditionally, with the current date as the only dynamic variable.
The agent prompt and voice id referenced at lines 1511 and 1514 are free
identifiers of the snippet and enter the model as an environment record.
`startProcessed` is a history flag recording whether the Twilio start event
(lines 1678 to 1758) has run; the handler itself keeps no such variable. -/

structure EnvB where
  agentPrompt : String
  voiceId : String
deriving Repr, DecidableEq

/-- Explicit initialization frame of lines 1506 to 1525. -/
structure InitialConfigB where
  agentPrompt : String
  voiceId : String
  encoding : String
  sampleRate : Nat
  dynCurrentDate : String
deriving Repr, DecidableEq

structure SessionStateB where
  streamSid : Option String
  callSid : Option String
  elOpen : Bool
  twilioAudioBuffer : List String
  startProcessed : Bool
deriving Repr, DecidableEq

def initialStateB : SessionStateB :=
  { streamSid := none
    callSid := none
    elOpen := false
    twilioAudioBuffer := []
    startProcessed := false }

/-- Events of the variant B handler.  The open event carries the current
date computed at lines 1499 to 1503. -/
inductive TEventB where
  | agentOpen (currentDate : String)
  | telcoStart (sid : String) (cSid : Option String)
  | telcoMedia (payload : String)
  | telcoStop
  | agentAudio (chunk : Option String)
  | agentInterruption
  | agentClose
deriving Repr, DecidableEq

inductive OutFrameB where
  | initFrame (c : InitialConfigB)
  | userAudio (chunk : String)
  | mediaToTelco (sid : String) (payload : String)
  | clearToTelco (sid : String)
  | closeAgentWs
  | finalizeCall (cSid : String)
deriving Repr, DecidableEq

/-- One step of the variant B handler:

* `agentOpen`: lines 1470 to 1530 (mark open, drain the buffer, then send
  the explicit initialization frame unconditionally);
* `telcoStart`: lines 1678 to 1758 (record sids; parameters and AMD lookup
  have no effect on any emitted frame);
* `telcoMedia`: lines 1760 to 1781 (forward when open, else buffer with no
  cap);
* `telcoStop`: lines 1783 to 1810;
* `agentAudio`: lines 1543 to 1569 (forward when streamSid is truthy, else
  drop the chunk);
* `agentInterruption`: lines 1571 to 1580;
* `agentClose`: lines 1656 to 1660. -/
def stepB (env : EnvB) (s : SessionStateB) : TEventB → SessionStateB × List OutFrameB
  | .agentOpen currentDate =>
      ({ s with elOpen := true, twilioAudioBuffer := [] },
       s.twilioAudioBuffer.map OutFrameB.userAudio ++
         [OutFrameB.initFrame
            { agentPrompt := env.agentPrompt
              voiceId := env.voiceId
              encoding := "ulaw"
              sampleRate := 8000
              dynCurrentDate := currentDate }])
  | .telcoStart sid cSid =>
      ({ s with streamSid := some sid, callSid := cSid, startProcessed := true }, [])
  | .telcoMedia payload =>
      if s.elOpen then (s, [OutFrameB.userAudio payload])
      else ({ s with twilioAudioBuffer := s.twilioAudioBuffer ++ [payload] }, [])
  | .telcoStop =>
      ({ s with elOpen := false },
       (if s.elOpen then [OutFrameB.closeAgentWs] else []) ++
         (match s.callSid with
          | some c => if c == "" then [] else [OutFrameB.finalizeCall c]
          | none => []))
  | .agentAudio chunk =>
      if jsTruthyS s.streamSid then
        match chunk with
        | some c =>
            if c == "" then (s, [])
            else (s, [OutFrameB.mediaToTelco (s.streamSid.getD "") c])
        | none => (s, [])
      else (s, [])
  | .agentInterruption =>
      if jsTruthyS s.streamSid then
        (s, [OutFrameB.clearToTelco (s.streamSid.getD "")])
      else (s, [])
  | .agentClose => ({ s with elOpen := false }, [])

def runFromB (env : EnvB) (s : SessionStateB) : List TEventB → SessionStateB × List OutFrameB
  | [] => (s, [])
  | e :: es =>
      let r := stepB env s e
      let rest := runFromB env r.1 es
      (rest.1, r.2 ++ rest.2)

def runB (env : EnvB) (es : List TEventB) : SessionStateB × List OutFrameB :=
  runFromB env initialStateB es

/-! ## The /call-status route (variant A, lines 1218 to 1245)

The handler destructures the Twilio callback, and on a machine
classification immediately finalizes the call through the SDK.  It never
writes to the module-level `amdResults` map (declared at line 493); the only
accesses to that map in the whole repository are the read-and-delete in the
start handlers.  The AMD registry state is threaded through explicitly so
this can be stated. -/

inductive SdkAction where
  | finalize (cSid : String)
deriving Repr, DecidableEq

structure CallStatusOutcome where
  amdAfter : List (String × String)
  actions : List SdkAction
  httpStatus : Nat
deriving Repr, DecidableEq

/-- The `machineResponses` list of line 1229. -/
def machineResponses : List String :=
  ["machine_start", "machine_end_beep", "machine_end_silence", "machine_end_other", "fax"]

/-- Translation of the /call-status handler (lines 1218 to 1245), given the
current contents of `amdResults`. -/
def callStatusHandler (amd : List (String × String)) (cSid : String)
    (answeredBy : Option String) : CallStatusOutcome :=
  let acts :=
    match answeredBy with
    | some ab =>
        if !(ab == "") && machineResponses.contains ab then [SdkAction.finalize cSid]
        else []
    | none => []
  { amdAfter := amd, actions := acts, httpStatus := 200 }

/-! ## The /outbound-call route (variant A, lines 538 to 630)

Only the request-acceptance decision is modelled: the handler rejects with
400 when the number is missing (line 540), and also rejects with 400 when
the request host is local while no public URL is configured (lines 567 to
584); otherwise it asks the Twilio SDK to place the call. -/

/-- Boolean prefix test on character lists. -/
def prefixOfB : List Char → List Char → Bool
  | [], _ => true
  | _ :: _, [] => false
  | a :: as, b :: bs => a == b && prefixOfB as bs

/-- Boolean substring test on character lists, modelling
`String.prototype.includes`. -/
def containsSeq (needle : List Char) : List Char → Bool
  | [] => prefixOfB needle []
  | c :: rest => prefixOfB needle (c :: rest) || containsSeq needle rest

/-- JavaScript `hay.includes(sub)`. -/
def strContainsSub (hay sub : String) : Bool :=
  containsSeq sub.data hay.data

structure OutboundEnv where
  publicUrl : Option String
  railwayPublicDomain : Option String
  railwayEnvironment : Option String
deriving Repr, DecidableEq

structure OutboundRequest where
  name : Option String
  number : Option String
  airtableRecordId : Option String
  hostHeader : String
deriving Repr, DecidableEq

inductive OutboundDecision where
  | missingNumber400
  | localhost400
  | placeCall (toNumber : String) (callerName : String)
deriving Repr, DecidableEq

/-- Acceptance decision of the /outbound-call handler (lines 538 to 584):
missing number check, then the localhost guard built from the host header
and the PUBLIC_URL and Railway environment variables. -/
def outboundCallHandler (env : OutboundEnv) (req : OutboundRequest) : OutboundDecision :=
  if jsTruthyS req.number = false then OutboundDecision.missingNumber400
  else
    let callerName := jsOrS req.name "Valued Customer"
    let isLocalhost :=
      strContainsSub req.hostHeader "localhost" || strContainsSub req.hostHeader "127.0.0.1"
    let isRailway :=
      jsTruthyS env.railwayPublicDomain || jsTruthyS env.railwayEnvironment
    if isLocalhost && !(jsTruthyS env.publicUrl) && !isRailway then
      OutboundDecision.localhost400
    else OutboundDecision.placeCall (req.number.getD "") callerName

/-! ## Frame-analysis helpers -/

/-- Does a frame carry the initialization message? -/
def isInitFrame : OutFrame → Bool
  | .initFrame _ => true
  | _ => false

/-- Number of initialization frames in an output trace. -/
def initCount : List OutFrame → Nat
  | [] => 0
  | f :: rest => (if isInitFrame f then 1 else 0) + initCount rest

@[simp] theorem initCount_nil : initCount [] = 0 := rfl

@[simp] theorem initCount_cons (f : OutFrame) (l : List OutFrame) :
    initCount (f :: l) = (if isInitFrame f then 1 else 0) + initCount l := rfl

@[simp] theorem initCount_append (l1 l2 : List OutFrame) :
    initCount (l1 ++ l2) = initCount l1 + initCount l2 := by
  induction l1 with
  | nil => simp
  | cons f l ih => simp [ih, Nat.add_assoc]

@[simp] theorem initCount_map_media (sid : String) (l : List String) :
    initCount (l.map (fun c => OutFrame.mediaToTelco sid c)) = 0 := by
  induction l with
  | nil => rfl
  | cons c l ih => simp [isInitFrame, ih]

@[simp] theorem initCount_map_user (l : List String) :
    initCount (l.map OutFrame.userAudio) = 0 := by
  induction l with
  | nil => rfl
  | cons c l ih => simp [isInitFrame, ih]

/-- Initialization frames in a variant B output trace. -/
def initCountB : List OutFrameB → Nat
  | [] => 0
  | OutFrameB.initFrame _ :: rest => 1 + initCountB rest
  | _ :: rest => initCountB rest

/-- Chunks of user-audio frames sent to the agent, in order. -/
def userAudioOf : List OutFrame → List String
  | [] => []
  | OutFrame.userAudio c :: rest => c :: userAudioOf rest
  | _ :: rest => userAudioOf rest

@[simp] theorem userAudioOf_map (l : List String) :
    userAudioOf (l.map OutFrame.userAudio) = l := by
  induction l with
  | nil => rfl
  | cons c l ih => simp [userAudioOf, ih]

/-- Initialization configs occurring in an output trace, in order. -/
def initConfigsOf : List OutFrame → List InitialConfig
  | [] => []
  | OutFrame.initFrame c :: rest => c :: initConfigsOf rest
  | _ :: rest => initConfigsOf rest

/-- Stream sid carried by a frame directed at the Twilio socket; frames to
the agent and SDK actions carry none. -/
def telcoFrameSid : OutFrame → Option String
  | .mediaToTelco sid _ => some sid
  | .clearToTelco sid => some sid
  | _ => none

/-! ## Step lemmas for the init handshake -/

/-- Once `initialConfigSent` is set, no step resets it and no step emits a
further initialization frame. -/
theorem stepA_sent_mono (s : SessionState) (e : TEvent)
    (h : s.initialConfigSent = true) :
    (stepA s e).1.initialConfigSent = true ∧ initCount (stepA s e).2 = 0 := by
  cases e <;>
    simp only [stepA] <;>
    (try split) <;>
    (try split) <;>
    (try split) <;>
    simp_all [isInitFrame]

/-- While `initialConfigSent` is unset, a step emits exactly one
initialization frame when it sets the flag and none otherwise. -/
theorem stepA_init_flip (s : SessionState) (e : TEvent)
    (h : s.initialConfigSent = false) :
    initCount (stepA s e).2 =
      (if (stepA s e).1.initialConfigSent then 1 else 0) := by
  cases e <;>
    simp only [stepA] <;>
    (try split) <;>
    (try split) <;>
    (try split) <;>
    simp_all [isInitFrame]

/-- Trace-level form of `stepA_sent_mono`: from a state with the flag set,
a run emits no initialization frame and keeps the flag. -/
theorem runFrom_sent_mono (es : List TEvent) (s : SessionState)
    (h : s.initialConfigSent = true) :
    (runFrom s es).1.initialConfigSent = true ∧ initCount (runFrom s es).2 = 0 := by
  induction es generalizing s with
  | nil => simpa [runFrom] using h
  | cons e es ih =>
      have hs := stepA_sent_mono s e h
      have hrest := ih (stepA s e).1 hs.1
      simp [runFrom, hs.2, hrest.1, hrest.2]

/-- Trace-level init accounting: starting with the flag unset, the number of
initialization frames emitted equals the final value of the flag. -/
theorem runFrom_init_flag (es : List TEvent) (s : SessionState)
    (h : s.initialConfigSent = false) :
    initCount (runFrom s es).2 =
      (if (runFrom s es).1.initialConfigSent then 1 else 0) := by
  induction es generalizing s with
  | nil => simp [runFrom, h]
  | cons e es ih =>
      by_cases hflip : (stepA s e).1.initialConfigSent = true
      · have hone := stepA_init_flip s e h
        have hrest := runFrom_sent_mono es (stepA s e).1 hflip
        simp [runFrom, hone, hflip, hrest.1, hrest.2]
      · have hflip' : (stepA s e).1.initialConfigSent = false := by
          simpa using hflip
        have hone := stepA_init_flip s e h
        have hrest := ih (stepA s e).1 hflip'
        simp [runFrom, hone, hflip', hrest]

/-- C1. For every session, the initialization frame is sent to the agent
WebSocket at most once: along any event trace the number of emitted
initialization frames equals the final value of the `initialConfigSent`
flag (so it is 0 before the flag flips and exactly 1 afterwards), and once
the flag is set every continuation of the trace keeps it set and emits no
further initialization frame — also under racing open/start events or
repeated start events, which are arbitrary traces here. -/
theorem c1_init_sent_at_most_once (es more : List TEvent) :
    initCount (runA es).2 =
      (if (runA es).1.initialConfigSent then 1 else 0) ∧
    ((runA es).1.initialConfigSent = true →
      (runFrom (runA es).1 more).1.initialConfigSent = true ∧
        initCount (runFrom (runA es).1 more).2 = 0) := by
  refine ⟨runFrom_init_flag es initialState rfl, ?_⟩
  intro h
  exact runFrom_sent_mono more (runA es).1 h

/-- Witness for C1 at a concrete trace: a start event followed by the agent
open emits exactly one initialization frame, and a further open emits no
second one. -/
theorem c1_witness :
    initCount (runA [TEvent.telcoStart "MZ1" (some "CA1") ⟨none, none, none, none⟩,
        TEvent.agentOpen]).2 =
      (if (runA [TEvent.telcoStart "MZ1" (some "CA1") ⟨none, none, none, none⟩,
        TEvent.agentOpen]).1.initialConfigSent then 1 else 0) ∧
    initCount (runFrom (runA [TEvent.telcoStart "MZ1" (some "CA1") ⟨none, none, none, none⟩,
        TEvent.agentOpen]).1 [TEvent.agentOpen]).2 = 0 := by
  refine ⟨(c1_init_sent_at_most_once
    [TEvent.telcoStart "MZ1" (some "CA1") ⟨none, none, none, none⟩, TEvent.agentOpen]
    [TEvent.agentOpen]).1, ?_⟩
  exact ((c1_init_sent_at_most_once
    [TEvent.telcoStart "MZ1" (some "CA1") ⟨none, none, none, none⟩, TEvent.agentOpen]
    [TEvent.agentOpen]).2 (by decide)).2

/-- A step that emits an initialization frame is an agent open event fired
in a state with a truthy callSid, decoded custom parameters present and the
flag unset; the post state has the agent socket open. -/
theorem stepA_init_conditions (s : SessionState) (e : TEvent)
    (h : initCount (stepA s e).2 ≠ 0) :
    e = TEvent.agentOpen ∧ jsTruthyS s.callSid = true ∧
      s.initialConfigSent = false ∧ s.decodedCustomParameters.isSome = true ∧
      (stepA s e).1.elOpen = true := by
  cases e <;>
    simp only [stepA] at h ⊢ <;>
    (try split at h) <;>
    (try split at h) <;>
    (try split at h) <;>
    simp_all [isInitFrame]

/-- Invariant: the decoded custom parameters exist exactly when the Twilio
start event has been processed (both are written only by the start arm). -/
theorem stepA_decoded_started (s : SessionState) (e : TEvent)
    (h : s.decodedCustomParameters.isSome = s.twilioStartEventProcessed) :
    (stepA s e).1.decodedCustomParameters.isSome =
      (stepA s e).1.twilioStartEventProcessed := by
  cases e <;>
    simp only [stepA] <;>
    (try split) <;>
    (try split) <;>
    (try split) <;>
    simp_all

/-- Trace-level form of the decoded/started invariant. -/
theorem runA_decoded_started (es : List TEvent) :
    (runA es).1.decodedCustomParameters.isSome =
      (runA es).1.twilioStartEventProcessed := by
  suffices h : ∀ s, s.decodedCustomParameters.isSome = s.twilioStartEventProcessed →
      (runFrom s es).1.decodedCustomParameters.isSome =
        (runFrom s es).1.twilioStartEventProcessed by
    exact h initialState rfl
  induction es with
  | nil => intro s hs; simpa [runFrom] using hs
  | cons e es ih =>
      intro s hs
      exact ih (stepA s e).1 (stepA_decoded_started s e hs)

/-- C2, amended, primary handler part.  In the variant A session handler,
whenever a step of a reachable session emits the initialization frame, that
step is the agent open event, the Twilio start event has already been
processed, `initialConfigSent` was still false, and the agent socket is open
from that step on.  (The original claim is refuted on the second handler
variant by `c2_counterexample` below.) -/
theorem c2_init_only_when_ready (es : List TEvent) (e : TEvent)
    (h : initCount (stepA (runA es).1 e).2 ≠ 0) :
    e = TEvent.agentOpen ∧
      (runA es).1.twilioStartEventProcessed = true ∧
      (runA es).1.initialConfigSent = false ∧
      (stepA (runA es).1 e).1.elOpen = true := by
  have hc := stepA_init_conditions (runA es).1 e h
  have hinv := runA_decoded_started es
  refine ⟨hc.1, ?_, hc.2.2.1, hc.2.2.2.2⟩
  rw [← hinv]
  exact hc.2.2.2.1

/-- Witness for C2 at a concrete trace: after a start event, the agent open
step emits the initialization frame and the stated conditions hold. -/
theorem c2_witness :
    TEvent.agentOpen = TEvent.agentOpen ∧
      (runA [TEvent.telcoStart "MZ1" (some "CA1")
        ⟨none, none, none, none⟩]).1.twilioStartEventProcessed = true ∧
      (runA [TEvent.telcoStart "MZ1" (some "CA1")
        ⟨none, none, none, none⟩]).1.initialConfigSent = false ∧
      (stepA (runA [TEvent.telcoStart "MZ1" (some "CA1")
        ⟨none, none, none, none⟩]).1 TEvent.agentOpen).1.elOpen = true :=
  c2_init_only_when_ready
    [TEvent.telcoStart "MZ1" (some "CA1") ⟨none, none, none, none⟩]
    TEvent.agentOpen (by decide)

/-- C2 counterexample, on the second handler variant (lines 1470 to 1530):
when the agent socket opens before any Twilio start event, the handler sends
the explicit initialization frame although `telco_started` does not hold —
so the claim that the initialization frame is only ever sent after the
Twilio start event has been processed is false for that handler. -/
theorem c2_counterexample :
    initCountB (runB ⟨"prompt", "voice"⟩ [TEventB.agentOpen "2026-10-11"]).2 = 1 ∧
      initialStateB.startProcessed = false ∧
      initialStateB.streamSid = none := by
  decide

/-- Helper for C3: every frame a single step sends to the Twilio socket
carries a stream sid that the post state records as the session stream
sid. -/
theorem stepA_telco_frames (s : SessionState) (e : TEvent) :
    ∀ f ∈ (stepA s e).2, ∀ sid, telcoFrameSid f = some sid →
      (stepA s e).1.streamSid = some sid := by
  intro f hf sid hsid
  cases e with
  | telcoStart sid0 cSid cp =>
      simp only [stepA] at hf ⊢
      obtain ⟨c, _, rfl⟩ := List.mem_map.mp hf
      simp only [telcoFrameSid, Option.some.injEq] at hsid
      simp [hsid]
  | telcoMedia payload =>
      by_cases ho : s.elOpen
      · simp [stepA, ho] at hf
        subst hf
        simp [telcoFrameSid] at hsid
      · by_cases hlen : s.twilioAudioBuffer.length < 200 <;>
          simp [stepA, ho, hlen] at hf
  | telcoStop =>
      simp only [stepA] at hf
      rcases List.mem_append.mp hf with h1 | h1
      · by_cases ho : s.elOpen
        · simp [ho] at h1
          subst h1
          simp [telcoFrameSid] at hsid
        · simp [ho] at h1
      · cases hcs : s.callSid with
        | none => rw [hcs] at h1; simp at h1
        | some c =>
            rw [hcs] at h1
            by_cases hc : c = ""
            · simp [hc] at h1
            · simp [hc] at h1
              subst h1
              simp [telcoFrameSid] at hsid
  | telcoConnected => simp [stepA] at hf
  | telcoClose =>
      by_cases ho : s.elOpen
      · simp [stepA, ho] at hf
        subst hf
        simp [telcoFrameSid] at hsid
      · simp [stepA, ho] at hf
  | agentOpen =>
      cases hd : s.decodedCustomParameters with
      | none =>
          simp only [stepA, hd] at hf
          obtain ⟨c, _, rfl⟩ := List.mem_map.mp hf
          simp [telcoFrameSid] at hsid
      | some p =>
          simp only [stepA, hd] at hf
          by_cases hg : (jsTruthyS s.callSid && !s.initialConfigSent) = true
          · rw [if_pos hg] at hf
            simp only [List.mem_cons] at hf
            rcases hf with rfl | hf
            · simp [telcoFrameSid] at hsid
            · obtain ⟨c, _, rfl⟩ := List.mem_map.mp hf
              simp [telcoFrameSid] at hsid
          · rw [if_neg hg] at hf
            obtain ⟨c, _, rfl⟩ := List.mem_map.mp hf
            simp [telcoFrameSid] at hsid
  | agentAudio chunk =>
      cases hss : s.streamSid with
      | none =>
          cases chunk with
          | none => simp [stepA, hss, jsTruthyS] at hf
          | some c =>
              by_cases hc : c = "" <;> simp [stepA, hss, jsTruthyS, hc] at hf
      | some s0 =>
          by_cases h0 : s0 = ""
          · subst h0
            cases chunk with
            | none => simp [stepA, hss, jsTruthyS] at hf
            | some c =>
                by_cases hc : c = "" <;> simp [stepA, hss, jsTruthyS, hc] at hf
          · cases chunk with
            | none => simp [stepA, hss, jsTruthyS, h0] at hf
            | some c =>
                by_cases hc : c = ""
                · simp [stepA, hss, jsTruthyS, h0, hc] at hf
                · simp [stepA, hss, jsTruthyS, h0, hc] at hf ⊢
                  subst hf
                  simp only [telcoFrameSid, Option.getD_some, Option.some.injEq] at hsid
                  simp [hss, hsid]
  | agentInterruption =>
      cases hss : s.streamSid with
      | none => simp [stepA, hss, jsTruthyS] at hf
      | some s0 =>
          by_cases h0 : s0 = ""
          · subst h0
            simp [stepA, hss, jsTruthyS] at hf
          · simp [stepA, hss, jsTruthyS, h0] at hf ⊢
            subst hf
            simp only [telcoFrameSid, Option.getD_some, Option.some.injEq] at hsid
            simp [hss, hsid]
  | agentPing eventId =>
      cases eventId with
      | none => simp [stepA] at hf
      | some n =>
          by_cases hn : n = 0
          · simp [stepA, hn] at hf
          · simp [stepA, hn] at hf
            subst hf
            simp [telcoFrameSid] at hsid
  | agentToolCall tcid outcome =>
      by_cases ho : s.elOpen
      · cases outcome <;>
          · simp [stepA, ho] at hf
            subst hf
            simp [telcoFrameSid] at hsid
      · cases outcome <;> simp [stepA, ho] at hf
  | agentOther => simp [stepA] at hf
  | agentClose => simp [stepA] at hf

/-- C3. For every session state and event, (i) every frame the step sends to
the Twilio socket carries a stream sid that the post state records as the
session stream sid — so no media or clear frame is ever sent before
`streamSid` is known; (ii) agent audio arriving while `streamSid` is unset
is appended to the pending buffer and nothing is emitted; (iii) the Twilio
start event records the stream sid, flushes the pending buffer to Twilio in
order and empties it. -/
theorem c3_no_telco_frame_before_start (s : SessionState) (e : TEvent) :
    (∀ f ∈ (stepA s e).2, ∀ sid, telcoFrameSid f = some sid →
      (stepA s e).1.streamSid = some sid) ∧
    (∀ chunk : String, chunk ≠ "" → s.streamSid = none →
      stepA s (TEvent.agentAudio (some chunk)) =
        ({ s with pendingAudioBuffer := s.pendingAudioBuffer ++ [chunk] }, [])) ∧
    (∀ (sid : String) (cSid : Option String) (cp : CustomParamsIn),
      (stepA s (TEvent.telcoStart sid cSid cp)).2 =
        s.pendingAudioBuffer.map (fun c => OutFrame.mediaToTelco sid c) ∧
      (stepA s (TEvent.telcoStart sid cSid cp)).1.pendingAudioBuffer = [] ∧
      (stepA s (TEvent.telcoStart sid cSid cp)).1.streamSid = some sid) := by
  refine ⟨stepA_telco_frames s e, ?_, ?_⟩
  · intro chunk hne hnone
    simp [stepA, hnone, jsTruthyS, hne]
  · intro sid cSid cp
    simp [stepA]

/-- Witness for C3 at concrete inputs: a nonempty agent chunk before start
is buffered silently, and a concrete start event flushes it. -/
theorem c3_witness :
    (stepA initialState (TEvent.agentAudio (some "QQ")) =
      ({ initialState with pendingAudioBuffer := ["QQ"] }, [])) ∧
    ((stepA { initialState with pendingAudioBuffer := ["QQ"] }
        (TEvent.telcoStart "MZ3" (some "CA3") ⟨none, none, none, none⟩)).2 =
      [OutFrame.mediaToTelco "MZ3" "QQ"]) := by
  constructor
  · have h := (c3_no_telco_frame_before_start initialState TEvent.agentOther).2.1
      "QQ" (by decide) rfl
    simpa using h
  · have h := ((c3_no_telco_frame_before_start
      { initialState with pendingAudioBuffer := ["QQ"] } TEvent.agentOther).2.2
      "MZ3" (some "CA3") ⟨none, none, none, none⟩).1
    simpa using h

/-- Step preservation of the outbound-buffer invariant: whenever the stream
sid is truthy, the pending (outbound) audio buffer is empty. -/
theorem stepA_pending_empty (s : SessionState) (e : TEvent)
    (h : jsTruthyS s.streamSid = true → s.pendingAudioBuffer = []) :
    jsTruthyS (stepA s e).1.streamSid = true →
      (stepA s e).1.pendingAudioBuffer = [] := by
  intro htr
  cases e with
  | telcoStart sid cSid cp => simp [stepA]
  | telcoMedia payload =>
      by_cases ho : s.elOpen
      · simp only [stepA, if_pos ho] at htr ⊢
        exact h htr
      · by_cases hlen : s.twilioAudioBuffer.length < 200 <;>
          · simp only [stepA, if_neg ho, hlen] at htr ⊢
            simp_all
  | telcoStop =>
      simp only [stepA] at htr ⊢
      exact h htr
  | telcoConnected =>
      simp only [stepA] at htr ⊢
      exact h htr
  | telcoClose =>
      simp only [stepA] at htr ⊢
      exact h htr
  | agentOpen =>
      cases hd : s.decodedCustomParameters with
      | none =>
          simp only [stepA, hd] at htr ⊢
          exact h htr
      | some p =>
          by_cases hg : (jsTruthyS s.callSid && !s.initialConfigSent) = true <;>
            · simp only [stepA, hd, hg] at htr ⊢
              simp_all
  | agentAudio chunk =>
      cases hss : s.streamSid with
      | none =>
          cases chunk with
          | none => simp only [stepA, hss, jsTruthyS] at htr ⊢; simp_all
          | some c =>
              by_cases hc : c = "" <;>
                simp_all [stepA, jsTruthyS, hss, hc]
      | some s0 =>
          cases chunk with
          | none =>
              simp only [stepA, hss] at htr ⊢
              simp_all
          | some c =>
              by_cases htr0 : jsTruthyS (some s0) = true
              · have hemp := h (by rw [hss]; exact htr0)
                by_cases hc : c = "" <;>
                  simp [stepA, hss, htr0, hc, hemp]
              · have htr0' : jsTruthyS (some s0) = false := by simpa using htr0
                by_cases hc : c = "" <;>
                  · simp only [stepA, hss, htr0', Bool.false_eq_true, if_neg, hc] at htr ⊢
                    simp_all
  | agentInterruption =>
      by_cases htr0 : jsTruthyS s.streamSid = true <;>
        · simp only [stepA, htr0] at htr ⊢
          simp_all
  | agentPing eventId =>
      cases eventId with
      | none => simp only [stepA] at htr ⊢; exact h htr
      | some n =>
          by_cases hn : n = 0 <;>
            · simp only [stepA] at htr ⊢
              simp_all
  | agentToolCall tcid outcome =>
      by_cases ho : s.elOpen <;> cases outcome <;>
        · simp only [stepA, ho] at htr ⊢
          simp_all
  | agentOther =>
      simp only [stepA] at htr ⊢
      exact h htr
  | agentClose =>
      simp only [stepA] at htr ⊢
      exact h htr

/-- Trace-level outbound-buffer invariant, generalized over the start
state. -/
theorem runFrom_pending_empty (es : List TEvent) :
    ∀ s, (jsTruthyS s.streamSid = true → s.pendingAudioBuffer = []) →
      jsTruthyS (runFrom s es).1.streamSid = true →
        (runFrom s es).1.pendingAudioBuffer = [] := by
  induction es with
  | nil => intro s hs; simpa [runFrom] using hs
  | cons e es ih =>
      intro s hs
      exact ih (stepA s e).1 (stepA_pending_empty s e hs)

/-- Outbound-buffer invariant for reachable session states. -/
theorem runA_pending_empty (es : List TEvent)
    (h : jsTruthyS (runA es).1.streamSid = true) :
    (runA es).1.pendingAudioBuffer = [] :=
  runFrom_pending_empty es initialState (fun _ => rfl) h

/-- C6. In every reachable session state whose stream sid is known, an
interruption frame from the agent makes the step emit exactly the clear
frame for that stream sid, and the outbound (pending) audio buffer is empty
both before and after the step — so no buffered agent audio can be
delivered to Twilio afterwards. -/
theorem c6_interruption_clears (es : List TEvent) (sid : String)
    (h1 : (runA es).1.streamSid = some sid) (h2 : sid ≠ "") :
    (stepA (runA es).1 TEvent.agentInterruption).2 = [OutFrame.clearToTelco sid] ∧
    (runA es).1.pendingAudioBuffer = [] ∧
    (stepA (runA es).1 TEvent.agentInterruption).1.pendingAudioBuffer = [] := by
  have htr : jsTruthyS (runA es).1.streamSid = true := by
    simp [h1, jsTruthyS, h2]
  have hemp := runA_pending_empty es htr
  refine ⟨?_, hemp, ?_⟩
  · simp [stepA, h1, jsTruthyS, h2]
  · simp [stepA, h1, jsTruthyS, h2, hemp]

/-- Witness for C6 at a concrete trace: after a start event with stream sid
MZ1, an interruption emits the clear frame and the outbound buffer is
empty. -/
theorem c6_witness :
    (stepA (runA [TEvent.telcoStart "MZ1" (some "CA1")
        ⟨none, none, none, none⟩]).1 TEvent.agentInterruption).2 =
      [OutFrame.clearToTelco "MZ1"] ∧
    (runA [TEvent.telcoStart "MZ1" (some "CA1")
        ⟨none, none, none, none⟩]).1.pendingAudioBuffer = [] ∧
    (stepA (runA [TEvent.telcoStart "MZ1" (some "CA1")
        ⟨none, none, none, none⟩]).1 TEvent.agentInterruption).1.pendingAudioBuffer = [] :=
  c6_interruption_clears [TEvent.telcoStart "MZ1" (some "CA1") ⟨none, none, none, none⟩]
    "MZ1" (by decide) (by decide)

/-- Step preservation of the inbound-buffer bound: the Twilio audio buffer
never exceeds 200 entries. -/
theorem stepA_buffer_bound (s : SessionState) (e : TEvent)
    (h : s.twilioAudioBuffer.length ≤ 200) :
    (stepA s e).1.twilioAudioBuffer.length ≤ 200 := by
  cases e with
  | telcoMedia payload =>
      by_cases ho : s.elOpen
      · simpa [stepA, ho] using h
      · by_cases hlen : s.twilioAudioBuffer.length < 200
        · simp [stepA, ho, hlen]
          omega
        · simpa [stepA, ho, hlen] using h
  | agentOpen =>
      cases hd : s.decodedCustomParameters with
      | none => simp [stepA, hd]
      | some p =>
          by_cases hg : (jsTruthyS s.callSid && !s.initialConfigSent) = true <;>
            simp [stepA, hd, hg]
  | telcoStart sid cSid cp => simpa [stepA] using h
  | telcoStop => simpa [stepA] using h
  | telcoConnected => simpa [stepA] using h
  | telcoClose => simpa [stepA] using h
  | agentAudio chunk =>
      cases hss : s.streamSid with
      | none =>
          cases chunk with
          | none => simpa [stepA, hss, jsTruthyS] using h
          | some c =>
              by_cases hc : c = "" <;>
                simpa [stepA, hss, jsTruthyS, hc] using h
      | some s0 =>
          cases chunk with
          | none => simpa [stepA, hss] using h
          | some c =>
              by_cases h0 : s0 = "" <;> by_cases hc : c = "" <;>
                simpa [stepA, hss, jsTruthyS, h0, hc] using h
  | agentInterruption =>
      by_cases htr : jsTruthyS s.streamSid = true <;>
        simpa [stepA, htr] using h
  | agentPing eventId =>
      cases eventId with
      | none => simpa [stepA] using h
      | some n =>
          by_cases hn : n = 0 <;> simpa [stepA, hn] using h
  | agentToolCall tcid outcome =>
      by_cases ho : s.elOpen <;> cases outcome <;>
        simpa [stepA, ho] using h
  | agentOther => simpa [stepA] using h
  | agentClose => simpa [stepA] using h

/-- Trace-level inbound-buffer bound, generalized over the start state. -/
theorem runFrom_buffer_bound (es : List TEvent) :
    ∀ s, s.twilioAudioBuffer.length ≤ 200 →
      (runFrom s es).1.twilioAudioBuffer.length ≤ 200 := by
  induction es with
  | nil => intro s hs; simpa [runFrom] using hs
  | cons e es ih =>
      intro s hs
      exact ih (stepA s e).1 (stepA_buffer_bound s e hs)

set_option maxRecDepth 10000 in
/-- C5 counterexample.  Drive a fresh session with 200 Twilio media frames
carrying "o" while the agent socket is closed, then one more frame carrying
"n": the buffer still holds the 200 oldest frames and the new frame "n" is
nowhere in it — the overflow policy of the code (lines 1136 to 1138) drops
the newly arriving frame, not the oldest buffered one as the claim
states. -/
theorem c5_counterexample :
    (runA (List.replicate 200 (TEvent.telcoMedia "o") ++
      [TEvent.telcoMedia "n"])).1.twilioAudioBuffer = List.replicate 200 "o" ∧
    "n" ∉ (runA (List.replicate 200 (TEvent.telcoMedia "o") ++
      [TEvent.telcoMedia "n"])).1.twilioAudioBuffer := by
  constructor
  · decide
  · decide

/-- C5, amended.  Telco media frames arriving while the agent socket is not
open are appended to the inbound buffer, which is bounded by 200 entries:
below the cap the frame is appended (order preserved), at the cap the newly
arriving frame is discarded and the already-buffered frames (including the
oldest) are kept unchanged; on agent open the buffer is drained to the agent
in arrival order and emptied.  Reachable sessions never exceed the cap. -/
theorem c5_inbound_buffering (es : List TEvent) (s : SessionState) (payload : String) :
    ((runA es).1.twilioAudioBuffer.length ≤ 200) ∧
    (s.elOpen = false → s.twilioAudioBuffer.length < 200 →
      stepA s (TEvent.telcoMedia payload) =
        ({ s with twilioAudioBuffer := s.twilioAudioBuffer ++ [payload] }, [])) ∧
    (s.elOpen = false → 200 ≤ s.twilioAudioBuffer.length →
      stepA s (TEvent.telcoMedia payload) = (s, [])) ∧
    (userAudioOf (stepA s TEvent.agentOpen).2 = s.twilioAudioBuffer ∧
      (stepA s TEvent.agentOpen).1.twilioAudioBuffer = []) := by
  refine ⟨runFrom_buffer_bound es initialState (by simp [initialState]), ?_, ?_, ?_, ?_⟩
  · intro ho hlen
    simp [stepA, ho, hlen]
  · intro ho hlen
    have hlen' : ¬s.twilioAudioBuffer.length < 200 := by omega
    simp [stepA, ho, hlen']
  · cases hd : s.decodedCustomParameters with
    | none => simp [stepA, hd, userAudioOf]
    | some p =>
        by_cases hg : (jsTruthyS s.callSid && !s.initialConfigSent) = true <;>
          simp [stepA, hd, hg, userAudioOf]
  · cases hd : s.decodedCustomParameters with
    | none => simp [stepA, hd]
    | some p =>
        by_cases hg : (jsTruthyS s.callSid && !s.initialConfigSent) = true <;>
          simp [stepA, hd, hg]

/-- Witness for C5 at concrete inputs: a frame is appended below the cap,
and the agent open event drains the buffer in order. -/
theorem c5_witness :
    (stepA initialState (TEvent.telcoMedia "AAA") =
      ({ initialState with twilioAudioBuffer := ["AAA"] }, [])) ∧
    (userAudioOf (stepA { initialState with twilioAudioBuffer := ["AAA", "BBB"] }
        TEvent.agentOpen).2 = ["AAA", "BBB"]) := by
  constructor
  · have h := (c5_inbound_buffering [] initialState "AAA").2.1 rfl (by decide)
    simpa using h
  · exact (c5_inbound_buffering [] { initialState with twilioAudioBuffer := ["AAA", "BBB"] }
      "x").2.2.2.1

/-- Initialization frames never occur among drained user-audio frames. -/
theorem initConfigsOf_map_user (l : List String) :
    initConfigsOf (l.map OutFrame.userAudio) = [] := by
  induction l with
  | nil => rfl
  | cons c l ih => simpa [initConfigsOf] using ih

/-- C10 counterexample.  A start event with empty custom parameters followed
by the agent open: the session stores the defaults (name "Valued Customer",
number "Unknown", record id null), but the initialization frame carries the
empty string as AIRTABLE_RECORD_ID — the null default is replaced by "" via
the expression at line 862, so the value placed into the frame is not the
null default the claim describes. -/
theorem c10_counterexample :
    (runA [TEvent.telcoStart "MZ1" (some "CA1") ⟨none, none, none, none⟩,
        TEvent.agentOpen]).1.decodedCustomParameters =
      some { name := "Valued Customer", number := "Unknown", airtableRecordId := none } ∧
    (initConfigsOf (runA [TEvent.telcoStart "MZ1" (some "CA1") ⟨none, none, none, none⟩,
        TEvent.agentOpen]).2).map
      (fun c => (c.dynCustomerName, c.dynPhoneNumber, c.dynAirtableRecordId)) =
      [("Valued Customer", "Unknown", "")] := by
  constructor
  · decide
  · decide

/-- C10, amended.  When the start event omits name, number and record id,
the session substitutes "Valued Customer", "Unknown" and null respectively;
the initialization frame then carries CUSTOMER_NAME = "Valued Customer" and
PHONE_NUMBER = "Unknown", while AIRTABLE_RECORD_ID is sent as the empty
string (the stored null default is rendered as "" in the frame). -/
theorem c10_start_defaults (s : SessionState) (sid cSid : String) (hc : cSid ≠ "")
    (cp : CustomParamsIn) (hn : cp.name = none) (hnum : cp.number = none)
    (ha : cp.airtableRecordId = none) (hsent : s.initialConfigSent = false) :
    (stepA s (TEvent.telcoStart sid (some cSid) cp)).1.decodedCustomParameters =
      some { name := "Valued Customer", number := "Unknown", airtableRecordId := none } ∧
    initConfigsOf (stepA (stepA s (TEvent.telcoStart sid (some cSid) cp)).1
        TEvent.agentOpen).2 =
      [{ firstMessage := "Hi Valued Customer" ++ greetingTail
         systemPrompt := outboundSystemPrompt
         dynCustomerName := "Valued Customer"
         dynPhoneNumber := "Unknown"
         dynAirtableRecordId := "" }] := by
  constructor
  · simp [stepA, hn, hnum, ha, jsOrS, jsOrNullS]
  · simp [stepA, hn, hnum, ha, hsent, jsTruthyS, hc, jsOrS, jsOrNullS, jsOrStr,
      buildInitialConfig, initConfigsOf, initConfigsOf_map_user]

/-- Witness for C10 at concrete inputs. -/
theorem c10_witness :
    (stepA initialState (TEvent.telcoStart "MZ9" (some "CA9")
        ⟨none, none, none, none⟩)).1.decodedCustomParameters =
      some { name := "Valued Customer", number := "Unknown", airtableRecordId := none } ∧
    initConfigsOf (stepA (stepA initialState (TEvent.telcoStart "MZ9" (some "CA9")
        ⟨none, none, none, none⟩)).1 TEvent.agentOpen).2 =
      [{ firstMessage := "Hi Valued Customer" ++ greetingTail
         systemPrompt := outboundSystemPrompt
         dynCustomerName := "Valued Customer"
         dynPhoneNumber := "Unknown"
         dynAirtableRecordId := "" }] :=
  c10_start_defaults initialState "MZ9" "CA9" (by decide)
    ⟨none, none, none, none⟩ rfl rfl rfl rfl

/-- C4 counterexample.  A /call-status callback for CallSid CA2 with
AnsweredBy machine_start: the handler finalizes the call immediately but
stores nothing in the AMD registry — the registry is unchanged (here: still
empty), so a session consulting it on its start event can never observe the
classification, contrary to the claim. -/
theorem c4_counterexample :
    (callStatusHandler [] "CA2" (some "machine_start")).amdAfter.lookup "CA2" = none ∧
    (callStatusHandler [] "CA2" (some "machine_start")).actions =
      [SdkAction.finalize "CA2"] := by
  constructor
  · decide
  · decide

/-- C4, amended.  When /call-status receives a callback whose AnsweredBy is
in the machine/fax list, it immediately finalizes the call via the Twilio
SDK (hence well within 60 seconds) and replies 200; it does not write the
classification into the AMD registry, whose contents are left unchanged —
nowhere in the repository is the registry written, so the voicemail branch
of the start handler is unreachable. -/
theorem c4_machine_finalize (amd : List (String × String)) (cSid ab : String)
    (h : ab ∈ machineResponses) :
    (callStatusHandler amd cSid (some ab)).actions = [SdkAction.finalize cSid] ∧
    (callStatusHandler amd cSid (some ab)).amdAfter = amd ∧
    (callStatusHandler amd cSid (some ab)).httpStatus = 200 := by
  refine ⟨?_, rfl, rfl⟩
  fin_cases h <;> simp [callStatusHandler, machineResponses]

/-- Witness for C4 at a concrete callback. -/
theorem c4_witness :
    (callStatusHandler [("CA1", "human")] "CA7" (some "machine_end_beep")).actions =
      [SdkAction.finalize "CA7"] ∧
    (callStatusHandler [("CA1", "human")] "CA7" (some "machine_end_beep")).amdAfter =
      [("CA1", "human")] ∧
    (callStatusHandler [("CA1", "human")] "CA7" (some "machine_end_beep")).httpStatus = 200 :=
  c4_machine_finalize [("CA1", "human")] "CA7" "machine_end_beep" (by decide)

/-- C7.  With the Cal.com API key configured, the `get_available_slots`
validation (i) fails with the missing-required-parameter error when
eventTypeId is absent, (ii) fails with the invalid-start error when the
start date is absent or not YYYY-MM-DD, (iii) only ever assembles queries
whose start and end dates match YYYY-MM-DD, (iv) defaults the end date to
the start date when the end parameter is absent or malformed, (v) defaults
the time zone to Australia/Brisbane when the timeZone parameter is absent or
malformed; and (vi) a failed tool call makes the session step emit exactly
one result envelope with is_error true, leaving the session state untouched
(no teardown). -/
theorem c7_slots_validation (key : Option String) (hkey : jsTruthyS key = true)
    (p : ToolParams) (s : SessionState) (hopen : s.elOpen = true)
    (tcid msg : String) :
    (jsTruthyS p.eventTypeId = false →
      handleToolExecutionSlots key p = SlotsResult.error missingEventTypeIdMsg) ∧
    ((jsTruthyS p.startParam = false ∨ isDateFormat (p.startParam.getD "") = false) →
      jsTruthyS p.eventTypeId = true →
      handleToolExecutionSlots key p = SlotsResult.error invalidStartMsg) ∧
    (∀ q, handleToolExecutionSlots key p = SlotsResult.ok q →
      isDateFormat q.startDate = true ∧ isDateFormat q.endDate = true) ∧
    ((jsTruthyS p.endParam = false ∨ isDateFormat (p.endParam.getD "") = false) →
      ∀ q, handleToolExecutionSlots key p = SlotsResult.ok q → q.endDate = q.startDate) ∧
    ((jsTruthyS p.timeZone = false ∨ isTzFormat (p.timeZone.getD "") = false) →
      ∀ q, handleToolExecutionSlots key p = SlotsResult.ok q →
        q.timeZone = "Australia/Brisbane") ∧
    (stepA s (TEvent.agentToolCall tcid (ToolOutcome.err msg)) =
      (s, [OutFrame.toolResult tcid (mkErrorJson msg) true])) := by
  refine ⟨?_, ?_, ?_, ?_, ?_, ?_⟩
  · intro hev
    simp [handleToolExecutionSlots, getAvailableSlotsQuery, hkey, hev]
  · intro hstart hev
    rcases hstart with hs1 | hs1 <;>
      simp [handleToolExecutionSlots, getAvailableSlotsQuery, hkey, hev, hs1]
  · intro q hq
    simp only [handleToolExecutionSlots, hkey, Bool.true_eq_false, if_neg,
      if_false] at hq
    simp only [getAvailableSlotsQuery] at hq
    by_cases hev : jsTruthyS p.eventTypeId = false
    · simp [hev] at hq
    · simp only [hev, if_false] at hq
      by_cases hst : (jsTruthyS p.startParam && isDateFormat (p.startParam.getD "")) = true
      · rw [if_pos hst] at hq
        have hstd : isDateFormat (p.startParam.getD "") = true :=
          (Bool.and_eq_true_iff.mp hst).2
        by_cases hend : (jsTruthyS p.endParam && isDateFormat (p.endParam.getD "")) = true
        · have hendd : isDateFormat (p.endParam.getD "") = true :=
            (Bool.and_eq_true_iff.mp hend).2
          rw [if_pos hend] at hq
          cases hq
          simp_all
        · rw [if_neg hend] at hq
          cases hq
          simp_all
      · rw [if_neg hst] at hq
        cases hq
  · intro hend q hq
    have hend' : (jsTruthyS p.endParam && isDateFormat (p.endParam.getD "")) = false := by
      rcases hend with h1 | h1 <;> simp [h1]
    simp only [handleToolExecutionSlots, hkey, Bool.true_eq_false, if_neg,
      if_false, getAvailableSlotsQuery, hend'] at hq
    by_cases hev : jsTruthyS p.eventTypeId = false
    · simp [hev] at hq
    · simp only [hev, if_false] at hq
      by_cases hst : (jsTruthyS p.startParam && isDateFormat (p.startParam.getD "")) = true
      · rw [if_pos hst] at hq
        simp only [Bool.false_eq_true, if_neg, if_false] at hq
        cases hq
        rfl
      · rw [if_neg hst] at hq
        cases hq
  · intro htz q hq
    have htz' : (jsTruthyS p.timeZone && isTzFormat (p.timeZone.getD "")) = false := by
      rcases htz with h1 | h1 <;> simp [h1]
    simp only [handleToolExecutionSlots, hkey, Bool.true_eq_false, if_neg,
      if_false, getAvailableSlotsQuery, htz'] at hq
    by_cases hev : jsTruthyS p.eventTypeId = false
    · simp [hev] at hq
    · simp only [hev, if_false] at hq
      by_cases hst : (jsTruthyS p.startParam && isDateFormat (p.startParam.getD "")) = true
      · rw [if_pos hst] at hq
        simp only [Bool.false_eq_true, if_neg, if_false] at hq
        cases hq
        rfl
      · rw [if_neg hst] at hq
        cases hq
  · simp [stepA, hopen]

/-- Witness for C7 at concrete inputs: missing eventTypeId is rejected, and
a failed tool call yields an error envelope without touching the session. -/
theorem c7_witness :
    handleToolExecutionSlots (some "calkey") ⟨none, some "2025-02-01", none, none⟩ =
      SlotsResult.error missingEventTypeIdMsg ∧
    stepA { initialState with elOpen := true }
        (TEvent.agentToolCall "t1" (ToolOutcome.err "boom")) =
      ({ initialState with elOpen := true },
        [OutFrame.toolResult "t1" (mkErrorJson "boom") true]) := by
  constructor
  · exact (c7_slots_validation (some "calkey") (by decide)
      ⟨none, some "2025-02-01", none, none⟩ { initialState with elOpen := true }
      rfl "t1" "boom").1 (by decide)
  · exact (c7_slots_validation (some "calkey") (by decide)
      ⟨none, some "2025-02-01", none, none⟩ { initialState with elOpen := true }
      rfl "t1" "boom").2.2.2.2.2

/-- C8.  Every URL handed out by `getCachedUrl` comes from a cache entry
acquired strictly less than five minutes (300000 ms) before the hand-out:
stale entries are filtered away before the front entry is popped. -/
theorem c8_cached_urls_fresh (now : Int) (cache : List UrlEntry) (u : String)
    (h : (getCachedUrl now cache).1 = some u) :
    ∃ e ∈ cache, e.url = u ∧ now - e.timestamp < 5 * 60 * 1000 := by
  simp only [getCachedUrl] at h
  cases hcase : cache.filter (fun item => decide (now - 5 * 60 * 1000 < item.timestamp)) with
  | nil => rw [hcase] at h; simp at h
  | cons item rest =>
      rw [hcase] at h
      simp only [Option.some.injEq] at h
      have hmem : item ∈ cache.filter
          (fun item => decide (now - 5 * 60 * 1000 < item.timestamp)) := by
        rw [hcase]; exact List.mem_cons_self item rest
      have hmem' := List.mem_filter.mp hmem
      refine ⟨item, hmem'.1, h ▸ rfl, ?_⟩
      have := of_decide_eq_true hmem'.2
      omega

/-- Witness for C8 at a concrete cache. -/
theorem c8_witness :
    ∃ e ∈ [UrlEntry.mk "wss://signed" 900000], e.url = "wss://signed" ∧
      (1000000 : Int) - e.timestamp < 5 * 60 * 1000 :=
  c8_cached_urls_fresh 1000000 [UrlEntry.mk "wss://signed" 900000] "wss://signed" (by decide)

/-- C9.  When the request carries a phone number but the host header
contains localhost or 127.0.0.1 while PUBLIC_URL and both Railway variables
are unset, the /outbound-call handler answers 400 and places no call. -/
theorem c9_localhost_guard (env : OutboundEnv) (req : OutboundRequest)
    (hnum : jsTruthyS req.number = true)
    (hpub : env.publicUrl = none)
    (hrd : env.railwayPublicDomain = none)
    (hre : env.railwayEnvironment = none)
    (hhost : strContainsSub req.hostHeader "localhost" = true ∨
      strContainsSub req.hostHeader "127.0.0.1" = true) :
    outboundCallHandler env req = OutboundDecision.localhost400 ∧
    ∀ toNumber callerName,
      outboundCallHandler env req ≠ OutboundDecision.placeCall toNumber callerName := by
  have hloc : (strContainsSub req.hostHeader "localhost" ||
      strContainsSub req.hostHeader "127.0.0.1") = true := by
    rcases hhost with h1 | h1 <;> simp [h1]
  have hpub' : jsTruthyS env.publicUrl = false := by rw [hpub]; rfl
  have hrd' : jsTruthyS env.railwayPublicDomain = false := by rw [hrd]; rfl
  have hre' : jsTruthyS env.railwayEnvironment = false := by rw [hre]; rfl
  have hdec : outboundCallHandler env req = OutboundDecision.localhost400 := by
    simp [outboundCallHandler, hnum, hpub', hrd', hre', hloc]
  exact ⟨hdec, fun toNumber callerName hcontra => by
    rw [hdec] at hcontra; exact OutboundDecision.noConfusion hcontra⟩

/-- Witness for C9 at a concrete request against a bare environment. -/
theorem c9_witness :
    outboundCallHandler ⟨none, none, none⟩
        ⟨some "John", some "+15551234", none, "localhost:8000"⟩ =
      OutboundDecision.localhost400 :=
  (c9_localhost_guard ⟨none, none, none⟩
    ⟨some "John", some "+15551234", none, "localhost:8000"⟩
    (by decide) rfl rfl rfl (Or.inl (by decide))).1
